import Mathlib

/-!
Shallow embedding of the Delegable DPC scheme from
`dpc/src/dpc/delegable_dpc/mod.rs` (scipr-lab/zexe).

Opaque cryptographic values (commitments, public keys, signatures, digests,
proofs, CRH outputs, PRF seeds and outputs, predicates) are modelled as `Nat`;
byte strings as `List Nat`.  The abstract primitive operations that the Rust
code consumes through the `DelegableDPCComponents` trait and the public
parameters become function-valued fields of structures, so that every theorem
is generic over the primitives exactly as the Rust code is generic over the
trait, and concrete instantiations remain executable.

Rust `Result<_, Error>` becomes `Except Err _`; code that can additionally
panic (`assert_eq!`, `expect`, slice indexing) returns `Res _`, which
distinguishes returned errors from panics.  Randomness (`&mut R: Rng`) is a
deterministic stream `RngState` threaded explicitly; each primitive draw
consumes stream elements in the order the Rust code draws them.
-/

namespace Zexe

/-- Byte strings (`Vec<u8>` / `[u8; n]`). -/
abbrev Bytes := List Nat

/-- Errors returned through `Result` (`crate::Error`): scheme-level primitive
failures and ledger failures. -/
inductive Err where
  | scheme (code : Nat) : Err
  | ledger (code : Nat) : Err
deriving DecidableEq, Repr

/-- Panics: `assert_eq!` failures and `expect` failures. -/
inductive Pan where
  | assertFailed : Pan
  | expectFailed (msg : String) : Pan
deriving DecidableEq, Repr

/-- Outcome of Rust code that both returns `Result` and may panic. -/
inductive Res (α : Type) where
  | ok (a : α) : Res α
  | err (e : Err) : Res α
  | panic (p : Pan) : Res α
deriving DecidableEq, Repr

namespace Res

/-- Sequencing corresponding to Rust's `?` plus panic propagation. -/
def bind {α β : Type} : Res α → (α → Res β) → Res β
  | ok a, f => f a
  | err e, _ => err e
  | panic p, _ => panic p

/-- Whether the computation returned successfully. -/
def isOk {α : Type} : Res α → Bool
  | ok _ => true
  | _ => false

end Res

/-- Lift a `Result`-returning sub-call (`?` operator) into `Res`. -/
def liftE {α : Type} : Except Err α → Res α
  | .ok a => .ok a
  | .error e => .err e

@[simp] theorem Res.bind_ok {α β : Type} (a : α) (f : α → Res β) :
    Res.bind (.ok a) f = f a := rfl

@[simp] theorem Res.bind_err {α β : Type} (e : Err) (f : α → Res β) :
    Res.bind (.err e) f = .err e := rfl

@[simp] theorem Res.bind_panic {α β : Type} (p : Pan) (f : α → Res β) :
    Res.bind (.panic p) f = .panic p := rfl

@[simp] theorem liftE_ok {α : Type} (a : α) : liftE (Except.ok a) = Res.ok a := rfl

@[simp] theorem liftE_error {α : Type} (e : Err) :
    liftE (α := α) (Except.error e) = Res.err e := rfl

/-- Deterministic model of `&mut R: Rng`: a stream of naturals (`seq`, with
default `0` past the end) and a cursor. -/
structure RngState where
  seq : List Nat
  pos : Nat
deriving DecidableEq, Repr

namespace RngState

/-- Draw one sample (`Randomness::rand(rng)` / one `rng.gen()` scalar). -/
def next (r : RngState) : Nat × RngState :=
  (r.seq.getD r.pos 0, ⟨r.seq, r.pos + 1⟩)

/-- Draw 32 bytes (`let x: [u8; 32] = rng.gen()`). -/
def gen32 (r : RngState) : Bytes × RngState :=
  ((List.range 32).map (fun k => r.seq.getD (r.pos + k) 0), ⟨r.seq, r.pos + 32⟩)

@[simp] theorem gen32_length (r : RngState) : (r.gen32).1.length = 32 := by
  simp [gen32]

end RngState

/-- `AddressPublicKey` (delegable_dpc/address.rs): an address-commitment output. -/
structure AddressPublicKey where
  public_key : Nat
deriving DecidableEq, Repr

/-- `AddressSecretKey`: fields as constructed in `create_address_helper`. -/
structure AddressSecretKey where
  pk_sig : Nat
  sk_sig : Nat
  sk_prf : Nat
  metadata : Bytes
  r_pk : Nat
deriving DecidableEq, Repr

/-- `AddressPair`: the key pair returned by `create_address`. -/
structure AddressPair where
  public_key : AddressPublicKey
  secret_key : AddressSecretKey
deriving DecidableEq, Repr

/-- `DPCRecord` (delegable_dpc/record.rs): fields as constructed in
`generate_record`. -/
structure DPCRecord where
  address_public_key : AddressPublicKey
  is_dummy : Bool
  payload : Bytes
  birth_predicate_repr : Bytes
  death_predicate_repr : Bytes
  serial_number_nonce : Nat
  commitment : Nat
  commitment_randomness : Nat
deriving DecidableEq, Repr

/-- `DPCPredicate`: opaque predicate (identified by its proving data). -/
abbrev DPCPredicate := Nat

/-- Signature scheme `Components::S` together with its public parameters
`sig_pp`: the operations `execute`/`verify` invoke. -/
structure SigParams where
  keygen : Nat → Except Err (Nat × Nat)
  sign : Nat → Bytes → Nat → Except Err Nat
  verify : Nat → Bytes → Nat → Except Err Bool
  randomize_public_key : Nat → Bytes → Except Err Nat
  randomize_signature : Nat → Bytes → Except Err Nat

/-- `CommCRHSigPublicParameters`: each commitment scheme / CRH is represented
by its (parameterised) operation. -/
structure CommCRHSigPublicParameters where
  addr_comm_pp : Bytes → Nat → Except Err Nat
  rec_comm_pp : Bytes → Nat → Except Err Nat
  pred_vk_comm_pp : Bytes → Nat → Except Err Nat
  local_data_comm_pp : Bytes → Nat → Except Err Nat
  sn_nonce_crh_pp : Bytes → Except Err Nat
  sig_pp : SigParams

/-- The remaining `DelegableDPCComponents` data: record counts, the PRF, the
`ToBytes`/`FromBytes` codecs of the opaque types, the predicate digest map
(`DPCPredicate::into_compact_repr`), and the canonical dummy ledger witness
(`LCW::dummy_witness`). -/
structure Components where
  NUM_INPUT_RECORDS : Nat
  NUM_OUTPUT_RECORDS : Nat
  serSigPk : Nat → Bytes
  serAddrComm : Nat → Bytes
  serRecComm : Nat → Bytes
  serCRHOut : Nat → Bytes
  serSeed : Nat → Bytes
  serPrfOut : Nat → Bytes
  serDigest : Nat → Bytes
  serProofCore : Nat → Bytes
  serProofPred : Nat → Bytes
  readPrfInput : Bytes → Except Err Nat
  readSeed : Bytes → Except Err Nat
  prf : Nat → Nat → Except Err Nat
  intoCompactRepr : DPCPredicate → Bytes
  dummy_witness : Nat

/-- `ToBytes` for `bool` (one byte). -/
def serBool (b : Bool) : Bytes := [if b then 1 else 0]

/-- The ledger collaborator (`trait Ledger`), restricted to the operations the
core calls. -/
structure Ledger where
  parameters : Nat
  digest : Except Err Nat
  validate_digest : Nat → Bool
  contains_sn : Nat → Bool
  prove_cm : Nat → Except Err Nat

/-- The `stuff : DPCStuff` part of a transaction (delegable_dpc/transaction.rs),
as populated by `Transaction::new`. -/
structure DPCStuff where
  digest : Nat
  core_proof : Nat
  predicate_proof : Nat
  predicate_comm : Nat
  local_data_comm : Nat
  signatures : List Nat
deriving DecidableEq, Repr

/-- `DPCTransaction`. -/
structure DPCTransaction where
  old_serial_numbers : List Nat
  new_commitments : List Nat
  memorandum : Bytes
  stuff : DPCStuff
deriving DecidableEq, Repr

/-- `Transaction::new` with the argument order used at the end of `execute`. -/
def DPCTransaction.new (old_serial_numbers new_commitments : List Nat)
    (memorandum : Bytes) (digest core_proof predicate_proof predicate_comm
    local_data_comm : Nat) (signatures : List Nat) : DPCTransaction :=
  { old_serial_numbers, new_commitments, memorandum,
    stuff := { digest, core_proof, predicate_proof, predicate_comm,
               local_data_comm, signatures } }

/-- `PrivatePredInput`: a predicate verification key and proof. -/
structure PrivatePredInput where
  vk : Nat
  proof : Nat
deriving DecidableEq, Repr

/-- `LocalData`. -/
structure LocalData where
  comm_crh_sig_pp : CommCRHSigPublicParameters
  old_records : List DPCRecord
  old_serial_numbers : List Nat
  new_records : List DPCRecord
  local_data_comm : Nat
  local_data_rand : Nat

/-- `ExecuteContext`. -/
structure ExecuteContext where
  comm_crh_sig_pp : CommCRHSigPublicParameters
  ledger_digest : Nat
  old_address_secret_keys : List AddressSecretKey
  old_records : List DPCRecord
  old_witnesses : List Nat
  old_serial_numbers : List Nat
  old_randomizers : List Bytes
  new_records : List DPCRecord
  new_sn_nonce_randomness : List Bytes
  new_commitments : List Nat
  predicate_comm : Nat
  predicate_rand : Nat
  local_data_comm : Nat
  local_data_rand : Nat

/-- `ExecuteContext::into_local_data`. -/
def ExecuteContext.into_local_data (c : ExecuteContext) : LocalData :=
  { comm_crh_sig_pp := c.comm_crh_sig_pp,
    old_records := c.old_records,
    old_serial_numbers := c.old_serial_numbers,
    new_records := c.new_records,
    local_data_comm := c.local_data_comm,
    local_data_rand := c.local_data_rand }

/-- `CoreChecksCircuit::new` argument bundle. -/
structure CoreChecksCircuit where
  comm_crh_sig_pp : CommCRHSigPublicParameters
  ledger_pp : Nat
  ledger_digest : Nat
  old_records : List DPCRecord
  old_witnesses : List Nat
  old_address_secret_keys : List AddressSecretKey
  old_serial_numbers : List Nat
  new_records : List DPCRecord
  new_sn_nonce_randomness : List Bytes
  new_commitments : List Nat
  predicate_comm : Nat
  predicate_rand : Nat
  local_data_comm : Nat
  local_data_rand : Nat
  memo : Bytes
  auxiliary : Bytes

/-- `CoreChecksVerifierInput` as assembled inside `verify`. -/
structure CoreChecksVerifierInput where
  comm_crh_sig_pp : CommCRHSigPublicParameters
  ledger_pp : Nat
  ledger_digest : Nat
  old_serial_numbers : List Nat
  new_commitments : List Nat
  memo : Bytes
  predicate_comm : Nat
  local_data_comm : Nat

/-- `ProofCheckCircuit::new` argument bundle. -/
structure ProofCheckCircuit where
  comm_crh_sig_pp : CommCRHSigPublicParameters
  old_death_pred_vk_and_proofs : List PrivatePredInput
  new_birth_pred_vk_and_proofs : List PrivatePredInput
  predicate_comm : Nat
  predicate_rand : Nat
  local_data_comm : Nat

/-- `ProofCheckVerifierInput` as assembled inside `verify`. -/
structure ProofCheckVerifierInput where
  comm_crh_sig_pp : CommCRHSigPublicParameters
  predicate_comm : Nat
  local_data_comm : Nat

/-- `PublicParameters`: `comm_crh_sig_pp` plus the two NIZK key pairs, each a
(proving, verifying) pair of operations.  A NIZK prover draws one randomness
sample. -/
structure PublicParameters where
  comm_crh_sig_pp : CommCRHSigPublicParameters
  core_nizk_pp :
    (CoreChecksCircuit → Nat → Except Err Nat) ×
    (CoreChecksVerifierInput → Nat → Except Err Bool)
  proof_check_nizk_pp :
    (ProofCheckCircuit → Nat → Except Err Nat) ×
    (ProofCheckVerifierInput → Nat → Except Err Bool)

/-- `DPC::generate_sn` (mod.rs lines 262-282): PRF the record's nonce under the
secret key's PRF seed, then randomize the secret key's signing public key with
the PRF output bytes. -/
def generate_sn (C : Components) (params : CommCRHSigPublicParameters)
    (record : DPCRecord) (address_secret_key : AddressSecretKey) :
    Except Err (Nat × Bytes) :=
  let sn_nonce := C.serCRHOut record.serial_number_nonce
  match C.readPrfInput sn_nonce with
  | .error e => .error e
  | .ok prf_input =>
    match C.readSeed (C.serSeed address_secret_key.sk_prf) with
    | .error e => .error e
    | .ok prf_seed =>
      match C.prf prf_seed prf_input with
      | .error e => .error e
      | .ok prf_out =>
        let sig_and_pk_randomizer := C.serPrfOut prf_out
        match params.sig_pp.randomize_public_key address_secret_key.pk_sig
            sig_and_pk_randomizer with
        | .error e => .error e
        | .ok sn => .ok (sn, sig_and_pk_randomizer)

/-- `DPC::generate_record` (mod.rs lines 284-331). -/
def generate_record (C : Components) (parameters : CommCRHSigPublicParameters)
    (sn_nonce : Nat) (address_public_key : AddressPublicKey) (is_dummy : Bool)
    (payload : Bytes) (birth_predicate death_predicate : DPCPredicate)
    (rng : RngState) : Except Err (DPCRecord × RngState) :=
  let commitment_randomness := rng.next.1
  let rng1 := rng.next.2
  let birth_predicate_repr := C.intoCompactRepr birth_predicate
  let death_predicate_repr := C.intoCompactRepr death_predicate
  let commitment_input :=
    C.serAddrComm address_public_key.public_key ++ serBool is_dummy ++
    payload ++ birth_predicate_repr ++ death_predicate_repr ++
    C.serCRHOut sn_nonce
  match parameters.rec_comm_pp commitment_input commitment_randomness with
  | .error e => .error e
  | .ok commitment =>
    .ok ({ address_public_key, is_dummy, payload, birth_predicate_repr,
           death_predicate_repr, serial_number_nonce := sn_nonce, commitment,
           commitment_randomness }, rng1)

/-- `DPC::create_address_helper` (mod.rs lines 333-365). -/
def create_address_helper (C : Components)
    (parameters : CommCRHSigPublicParameters) (metadata : Bytes)
    (rng : RngState) : Except Err (AddressPair × RngState) :=
  let kv := rng.next.1
  let rng1 := rng.next.2
  match parameters.sig_pp.keygen kv with
  | .error e => .error e
  | .ok ks =>
    let sk_bytes := rng1.gen32.1
    let rng2 := rng1.gen32.2
    match C.readSeed sk_bytes with
    | .error e => .error e
    | .ok sk_prf =>
      let r_pk := rng2.next.1
      let rng3 := rng2.next.2
      let commit_input := C.serSigPk ks.1 ++ C.serSeed sk_prf ++ metadata
      match parameters.addr_comm_pp commit_input r_pk with
      | .error e => .error e
      | .ok public_key =>
        .ok ({ public_key := { public_key },
               secret_key := { pk_sig := ks.1, sk_sig := ks.2, sk_prf,
                               metadata := metadata, r_pk } }, rng3)

/-- `DPCScheme::create_address` (mod.rs lines 616-625): thin wrapper around
`create_address_helper`. -/
def create_address (C : Components) (parameters : PublicParameters)
    (metadata : Bytes) (rng : RngState) : Except Err (AddressPair × RngState) :=
  create_address_helper C parameters.comm_crh_sig_pp metadata rng

/-- The per-input loop of `execute_helper` (mod.rs lines 415-434), over the
record/secret-key pairs.  (The Rust loop indexes `old_address_secret_keys[i]`;
the preceding `assert_eq!`s make both slices the same length, so iterating the
zip is the same computation.)  Returns
(witnesses, serial numbers, randomizers, joint serial-number bytes,
death-predicate digests), each in input order. -/
def processInput (C : Components) (params : CommCRHSigPublicParameters)
    (ledger : Ledger) :
    List (DPCRecord × AddressSecretKey) →
    Res (List Nat × List Nat × List Bytes × Bytes × List Bytes)
  | [] => .ok ([], [], [], [], [])
  | (record, key) :: rest =>
    let wres : Res Nat :=
      if record.is_dummy then .ok C.dummy_witness
      else liftE (ledger.prove_cm record.commitment)
    Res.bind wres (fun w =>
      Res.bind (liftE (generate_sn C params record key)) (fun snrz =>
        Res.bind (processInput C params ledger rest) (fun r =>
          .ok (w :: r.1, snrz.1 :: r.2.1, snrz.2 :: r.2.2.1,
               C.serSigPk snrz.1 ++ r.2.2.2.1,
               record.death_predicate_repr :: r.2.2.2.2))))

/-- The per-output loop of `execute_helper` (mod.rs lines 442-471), over the
zipped new-record argument slices with running slot index `j`.  Returns
(new records, serial-number-nonce randomness, new commitments) in slot
order, plus the final rng state. -/
def processOutput (C : Components) (params : CommCRHSigPublicParameters)
    (joint_serial_numbers : Bytes) :
    Nat → List (AddressPublicKey × Bool × Bytes × DPCPredicate × DPCPredicate) →
    RngState → Res (List DPCRecord × List Bytes × List Nat × RngState)
  | _, [], rng => .ok ([], [], [], rng)
  | j, arg :: rest, rng =>
    let sn_randomness := rng.gen32.1
    let rng1 := rng.gen32.2
    let crh_input : Bytes := (j % 256) :: (sn_randomness ++ joint_serial_numbers)
    Res.bind (liftE (params.sn_nonce_crh_pp crh_input)) (fun sn_nonce =>
      Res.bind (liftE (generate_record C params sn_nonce arg.1 arg.2.1
          arg.2.2.1 arg.2.2.2.1 arg.2.2.2.2 rng1)) (fun recrng =>
        Res.bind (processOutput C params joint_serial_numbers (j + 1) rest
            recrng.2) (fun r =>
          .ok (recrng.1 :: r.1, sn_randomness :: r.2.1,
               recrng.1.commitment :: r.2.2.1, r.2.2.2))))

/-- The serialization of one old record together with its serial number, as
appended to `predicate_input` (mod.rs lines 475-487). -/
def oldRecordBytes (C : Components) (record : DPCRecord) (sn : Nat) : Bytes :=
  C.serRecComm record.commitment ++
  C.serAddrComm record.address_public_key.public_key ++
  serBool record.is_dummy ++ record.payload ++
  record.birth_predicate_repr ++ record.death_predicate_repr ++
  C.serSigPk sn

/-- The serialization of one new record, as appended to `predicate_input`
(mod.rs lines 489-500). -/
def newRecordBytes (C : Components) (record : DPCRecord) : Bytes :=
  C.serRecComm record.commitment ++
  C.serAddrComm record.address_public_key.public_key ++
  serBool record.is_dummy ++ record.payload ++
  record.birth_predicate_repr ++ record.death_predicate_repr

/-- The full `predicate_input` byte string committed to by `local_data_comm`
(mod.rs lines 474-502): per old record its serialization followed by its
serial number, then the new records, then memo and auxiliary. -/
def predicateInputBytes (C : Components) (old_records : List DPCRecord)
    (old_serial_numbers : List Nat) (new_records : List DPCRecord)
    (memo auxiliary : Bytes) : Bytes :=
  ((old_records.zip old_serial_numbers).map
      (fun p => oldRecordBytes C p.1 p.2)).flatten ++
  (new_records.map (newRecordBytes C)).flatten ++ memo ++ auxiliary

/-- The byte string the spec's words describe for the local-data commitment
pre-image.  Modelled from the spec: "commit(serialize(old records ‖ old serial
numbers ‖ new records ‖ memo ‖ auxiliary); fresh randomness)" — the old
records as one block, followed by the old serial numbers as one block.  Kept
separate from `predicateInputBytes` (which mirrors the code) so the two
orderings can be compared. -/
def localDataPreimageSpec (C : Components) (old_records : List DPCRecord)
    (old_serial_numbers : List Nat) (new_records : List DPCRecord)
    (memo auxiliary : Bytes) : Bytes :=
  (old_records.map (newRecordBytes C)).flatten ++
  (old_serial_numbers.map C.serSigPk).flatten ++
  (new_records.map (newRecordBytes C)).flatten ++ memo ++ auxiliary

/-- Body of `DPC::execute_helper` (mod.rs lines 408-555), after the arity
asserts. -/
def executeHelperBody (C : Components)
    (parameters : CommCRHSigPublicParameters)
    (old_records : List DPCRecord)
    (old_address_secret_keys : List AddressSecretKey)
    (new_address_public_keys : List AddressPublicKey)
    (new_is_dummy_flags : List Bool) (new_payloads : List Bytes)
    (new_birth_predicates new_death_predicates : List DPCPredicate)
    (memo auxiliary : Bytes) (ledger : Ledger) (rng : RngState) :
    Res (ExecuteContext × RngState) :=
  Res.bind (processInput C parameters ledger
      (old_records.zip old_address_secret_keys)) (fun inres =>
    let old_witnesses := inres.1
    let old_serial_numbers := inres.2.1
    let old_randomizers := inres.2.2.1
    let joint_serial_numbers := inres.2.2.2.1
    let old_death_pred_hashes := inres.2.2.2.2
    Res.bind (processOutput C parameters joint_serial_numbers 0
        (new_address_public_keys.zip (new_is_dummy_flags.zip
          (new_payloads.zip (new_birth_predicates.zip new_death_predicates))))
        rng) (fun outres =>
      let new_records := outres.1
      let new_sn_nonce_randomness := outres.2.1
      let new_commitments := outres.2.2.1
      let rng1 := outres.2.2.2
      let predicate_input := predicateInputBytes C old_records
        old_serial_numbers new_records memo auxiliary
      let local_data_rand := rng1.next.1
      let rng2 := rng1.next.2
      Res.bind (liftE (parameters.local_data_comm_pp predicate_input
          local_data_rand)) (fun local_data_comm =>
        let pred_comm_input : Bytes :=
          old_death_pred_hashes.flatten ++
          (new_records.map (fun r => r.birth_predicate_repr)).flatten
        let predicate_rand := rng2.next.1
        let rng3 := rng2.next.2
        Res.bind (liftE (parameters.pred_vk_comm_pp pred_comm_input
            predicate_rand)) (fun predicate_comm =>
          match ledger.digest with
          | .error _ => .panic (.expectFailed "could not get digest")
          | .ok ledger_digest =>
            .ok ({ comm_crh_sig_pp := parameters, ledger_digest,
                   old_address_secret_keys, old_records, old_witnesses,
                   old_serial_numbers, old_randomizers, new_records,
                   new_sn_nonce_randomness, new_commitments, predicate_comm,
                   predicate_rand, local_data_comm, local_data_rand }, rng3)))))

/-- `DPC::execute_helper` (mod.rs lines 367-555): the arity `assert_eq!`s
(lines 396-406) followed by the body.  Note line 534 reads the ledger digest
with `.expect("could not get digest")`, i.e. a panic rather than a returned
error. -/
def executeHelper (C : Components) (parameters : CommCRHSigPublicParameters)
    (old_records : List DPCRecord)
    (old_address_secret_keys : List AddressSecretKey)
    (new_address_public_keys : List AddressPublicKey)
    (new_is_dummy_flags : List Bool) (new_payloads : List Bytes)
    (new_birth_predicates new_death_predicates : List DPCPredicate)
    (memo auxiliary : Bytes) (ledger : Ledger) (rng : RngState) :
    Res (ExecuteContext × RngState) :=
  if C.NUM_INPUT_RECORDS ≠ old_records.length then .panic .assertFailed
  else if C.NUM_INPUT_RECORDS ≠ old_address_secret_keys.length then
    .panic .assertFailed
  else if C.NUM_OUTPUT_RECORDS ≠ new_address_public_keys.length then
    .panic .assertFailed
  else if C.NUM_OUTPUT_RECORDS ≠ new_is_dummy_flags.length then
    .panic .assertFailed
  else if C.NUM_OUTPUT_RECORDS ≠ new_payloads.length then .panic .assertFailed
  else if C.NUM_OUTPUT_RECORDS ≠ new_birth_predicates.length then
    .panic .assertFailed
  else if C.NUM_OUTPUT_RECORDS ≠ new_death_predicates.length then
    .panic .assertFailed
  else executeHelperBody C parameters old_records old_address_secret_keys
    new_address_public_keys new_is_dummy_flags new_payloads
    new_birth_predicates new_death_predicates memo auxiliary ledger rng

/-- The signing loop at the end of `execute` (mod.rs lines 732-749), over the
zipped secret keys and serial-number randomizers: sign the message with the
input's `sk_sig`, then re-randomize the signature with that input's
randomizer. -/
def signLoop (sig_pp : SigParams) (signature_message : Bytes) :
    List (AddressSecretKey × Bytes) → RngState → Res (List Nat × RngState)
  | [], rng => .ok ([], rng)
  | kr :: rest, rng =>
    let rv := rng.next.1
    let rng1 := rng.next.2
    Res.bind (liftE (sig_pp.sign kr.1.sk_sig signature_message rv)) (fun s =>
      Res.bind (liftE (sig_pp.randomize_signature s kr.2)) (fun rs =>
        Res.bind (signLoop sig_pp signature_message rest rng1) (fun r =>
          .ok (rs :: r.1, r.2))))

/-- `CoreChecksCircuit::new` as invoked in `execute` (mod.rs lines 688-705). -/
def mkCoreCircuit (parameters : PublicParameters) (ledger : Ledger)
    (context : ExecuteContext) (memorandum auxiliary : Bytes) :
    CoreChecksCircuit :=
  { comm_crh_sig_pp := parameters.comm_crh_sig_pp,
    ledger_pp := ledger.parameters,
    ledger_digest := context.ledger_digest,
    old_records := context.old_records,
    old_witnesses := context.old_witnesses,
    old_address_secret_keys := context.old_address_secret_keys,
    old_serial_numbers := context.old_serial_numbers,
    new_records := context.new_records,
    new_sn_nonce_randomness := context.new_sn_nonce_randomness,
    new_commitments := context.new_commitments,
    predicate_comm := context.predicate_comm,
    predicate_rand := context.predicate_rand,
    local_data_comm := context.local_data_comm,
    local_data_rand := context.local_data_rand,
    memo := memorandum, auxiliary := auxiliary }

/-- `ProofCheckCircuit::new` as invoked in `execute` (mod.rs lines
711-718). -/
def mkProofCheckCircuit (parameters : PublicParameters)
    (old_death_pred_vk_and_proofs new_birth_pred_vk_and_proofs :
      List PrivatePredInput) (context : ExecuteContext) : ProofCheckCircuit :=
  { comm_crh_sig_pp := parameters.comm_crh_sig_pp,
    old_death_pred_vk_and_proofs, new_birth_pred_vk_and_proofs,
    predicate_comm := context.predicate_comm,
    predicate_rand := context.predicate_rand,
    local_data_comm := context.local_data_comm }

/-- The `signature_message` byte string of `execute` (mod.rs lines 723-730):
the serialization of (old serial numbers, new commitments, memorandum, ledger
digest, core proof, predicate proof) in that order. -/
def mkSignatureMessage (C : Components)
    (old_serial_numbers new_commitments : List Nat) (memorandum : Bytes)
    (ledger_digest core_proof proof_checks_proof : Nat) : Bytes :=
  (old_serial_numbers.map C.serSigPk).flatten ++
  (new_commitments.map C.serRecComm).flatten ++
  memorandum ++ C.serDigest ledger_digest ++
  C.serProofCore core_proof ++ C.serProofPred proof_checks_proof

/-- `DPCScheme::execute` (mod.rs lines 627-765). -/
def execute (C : Components) (parameters : PublicParameters)
    (old_records : List DPCRecord)
    (old_address_secret_keys : List AddressSecretKey)
    (old_death_pred_proof_generator : LocalData → List PrivatePredInput)
    (new_address_public_keys : List AddressPublicKey)
    (new_is_dummy_flags : List Bool) (new_payloads : List Bytes)
    (new_birth_predicates new_death_predicates : List DPCPredicate)
    (new_birth_pred_proof_generator : LocalData → List PrivatePredInput)
    (auxiliary memorandum : Bytes) (ledger : Ledger) (rng : RngState) :
    Res ((List DPCRecord × DPCTransaction) × RngState) :=
  Res.bind (executeHelper C parameters.comm_crh_sig_pp old_records
      old_address_secret_keys new_address_public_keys new_is_dummy_flags
      new_payloads new_birth_predicates new_death_predicates memorandum
      auxiliary ledger rng) (fun ctxrng =>
    let context := ctxrng.1
    let rng0 := ctxrng.2
    Res.bind (liftE (parameters.core_nizk_pp.1
        (mkCoreCircuit parameters ledger context memorandum auxiliary)
        rng0.next.1))
      (fun core_proof =>
        Res.bind (liftE (parameters.proof_check_nizk_pp.1
            (mkProofCheckCircuit parameters
              (old_death_pred_proof_generator context.into_local_data)
              (new_birth_pred_proof_generator context.into_local_data)
              context)
            rng0.next.2.next.1))
          (fun proof_checks_proof =>
            Res.bind (signLoop parameters.comm_crh_sig_pp.sig_pp
                (mkSignatureMessage C context.old_serial_numbers
                  context.new_commitments memorandum context.ledger_digest
                  core_proof proof_checks_proof)
                (context.old_address_secret_keys.zip context.old_randomizers)
                rng0.next.2.next.2) (fun sigsrng =>
              let transaction := DPCTransaction.new
                context.old_serial_numbers context.new_commitments memorandum
                context.ledger_digest core_proof proof_checks_proof
                context.predicate_comm context.local_data_comm sigsrng.1
              .ok ((context.new_records, transaction), sigsrng.2)))))

/-- The `signature_message` recomputed by `verify` from the transaction's own
fields (mod.rs lines 830-837); by construction of the transaction this is the
same byte string `execute` signed. -/
def signatureMessage (C : Components) (t : DPCTransaction) : Bytes :=
  (t.old_serial_numbers.map C.serSigPk).flatten ++
  (t.new_commitments.map C.serRecComm).flatten ++
  t.memorandum ++ C.serDigest t.stuff.digest ++
  C.serProofCore t.stuff.core_proof ++ C.serProofPred t.stuff.predicate_proof

/-- The `CoreChecksVerifierInput` assembled by `verify` (mod.rs lines
798-807). -/
def coreInput (parameters : PublicParameters) (t : DPCTransaction)
    (ledger : Ledger) : CoreChecksVerifierInput :=
  { comm_crh_sig_pp := parameters.comm_crh_sig_pp,
    ledger_pp := ledger.parameters,
    ledger_digest := t.stuff.digest,
    old_serial_numbers := t.old_serial_numbers,
    new_commitments := t.new_commitments,
    memo := t.memorandum,
    predicate_comm := t.stuff.predicate_comm,
    local_data_comm := t.stuff.local_data_comm }

/-- The `ProofCheckVerifierInput` assembled by `verify` (mod.rs lines
817-821). -/
def pcInput (parameters : PublicParameters) (t : DPCTransaction) :
    ProofCheckVerifierInput :=
  { comm_crh_sig_pp := parameters.comm_crh_sig_pp,
    predicate_comm := t.stuff.predicate_comm,
    local_data_comm := t.stuff.local_data_comm }

/-- The (public key, message, signature) triples the final loop of `verify`
checks (mod.rs lines 839-843): old serial numbers zipped positionally with the
signature list, each against the recomputed signature message. -/
def sigVerifyChecks (C : Components) (t : DPCTransaction) :
    List (Nat × Bytes × Nat) :=
  (t.old_serial_numbers.zip t.stuff.signatures).map
    (fun p => (p.1, signatureMessage C t, p.2))

/-- The signature-check loop of `verify`: `result &= S::verify(...)?` over the
triples. -/
def sigLoopV (sig_pp : SigParams) :
    List (Nat × Bytes × Nat) → Bool → Except Err Bool
  | [], result => .ok result
  | (pk, msg, sig) :: rest, result =>
    match sig_pp.verify pk msg sig with
    | .error e => .error e
    | .ok b => sigLoopV sig_pp rest (result && b)

/-- `DPCScheme::verify` (mod.rs lines 767-847).  `result` starts `true` and
every check ANDs into it without short-circuiting; sub-verifier errors
propagate via `?`. -/
def verify (C : Components) (parameters : PublicParameters)
    (transaction : DPCTransaction) (ledger : Ledger) : Except Err Bool :=
  let result := true
  let result := transaction.old_serial_numbers.foldl
    (fun acc sn => if ledger.contains_sn sn then acc && false else acc) result
  let result := transaction.old_serial_numbers.enum.foldl
    (fun acc p => transaction.old_serial_numbers.enum.foldl
      (fun acc2 q => if p.1 ≠ q.1 ∧ p.2 = q.2 then acc2 && false else acc2)
      acc) result
  let result := if ¬ ledger.validate_digest transaction.stuff.digest then
    result && false else result
  match parameters.core_nizk_pp.2 (coreInput parameters transaction ledger)
      transaction.stuff.core_proof with
  | .error e => .error e
  | .ok b =>
    let result := if ¬ b then result && false else result
    match parameters.proof_check_nizk_pp.2 (pcInput parameters transaction)
        transaction.stuff.predicate_proof with
    | .error e => .error e
    | .ok b2 =>
      let result := if ¬ b2 then result && false else result
      sigLoopV parameters.comm_crh_sig_pp.sig_pp
        (sigVerifyChecks C transaction) result

/-! ### Generic lemmas -/

instance exceptDecEq {ε α : Type} [DecidableEq ε] [DecidableEq α] :
    DecidableEq (Except ε α) := fun x y =>
  match x, y with
  | .ok a, .ok b =>
    if h : a = b then isTrue (by rw [h])
    else isFalse (by intro he; cases he; exact h rfl)
  | .ok _, .error _ => isFalse (by intro h; cases h)
  | .error _, .ok _ => isFalse (by intro h; cases h)
  | .error e, .error f =>
    if h : e = f then isTrue (by rw [h])
    else isFalse (by intro he; cases he; exact h rfl)

theorem foldl_and_false {α : Type} (p : α → Prop) [DecidablePred p]
    (l : List α) (r : Bool) :
    l.foldl (fun acc x => if p x then acc && false else acc) r
      = (r && l.all fun x => ! decide (p x)) := by
  induction l generalizing r with
  | nil => simp
  | cons x xs ih =>
    by_cases h : p x
    · rw [List.foldl_cons, if_pos h, ih]
      simp [h]
    · rw [List.foldl_cons, if_neg h, ih]
      simp [h, Bool.and_assoc]

theorem foldl_and_fn {α : Type} (g : α → Bool) (l : List α) (r : Bool) :
    l.foldl (fun acc x => acc && g x) r = (r && l.all g) := by
  induction l generalizing r with
  | nil => simp
  | cons x xs ih => simp [List.foldl_cons, ih, Bool.and_assoc]

theorem sigLoopV_ok_true_iff (sig_pp : SigParams)
    (l : List (Nat × Bytes × Nat)) (r : Bool) :
    sigLoopV sig_pp l r = .ok true ↔
      (r = true ∧ ∀ c ∈ l, sig_pp.verify c.1 c.2.1 c.2.2 = .ok true) := by
  induction l generalizing r with
  | nil =>
    constructor
    · intro h
      refine ⟨?_, by simp⟩
      cases r
      · exact absurd h (by simp [sigLoopV])
      · rfl
    · intro h
      rw [h.1]
      rfl
  | cons c rest ih =>
    obtain ⟨pk, msg, sig⟩ := c
    rw [sigLoopV]
    cases hv : sig_pp.verify pk msg sig with
    | error e =>
      constructor
      · intro h
        cases h
      · intro h
        have := h.2 (pk, msg, sig) (by simp)
        rw [hv] at this
        cases this
    | ok b =>
      rw [ih]
      cases b
      · simp only [Bool.and_false]
        constructor
        · intro h
          cases h.1
        · intro h
          have := h.2 (pk, msg, sig) (by simp)
          rw [hv] at this
          cases this
      · simp only [Bool.and_true]
        constructor
        · intro h
          refine ⟨h.1, ?_⟩
          intro x hx
          rcases List.mem_cons.mp hx with hx | hx
          · rw [hx]
            exact hv
          · exact h.2 x hx
        · intro h
          exact ⟨h.1, fun x hx => h.2 x (List.mem_cons_of_mem _ hx)⟩

theorem sigLoopV_all_ok (sig_pp : SigParams) (l : List (Nat × Bytes × Nat))
    (r : Bool)
    (h : ∀ c ∈ l, ∃ b, sig_pp.verify c.1 c.2.1 c.2.2 = .ok b) :
    sigLoopV sig_pp l r = .ok (r && l.all fun c =>
      decide (sig_pp.verify c.1 c.2.1 c.2.2 = .ok true)) := by
  induction l generalizing r with
  | nil => simp [sigLoopV]
  | cons c rest ih =>
    obtain ⟨pk, msg, sig⟩ := c
    obtain ⟨b, hb⟩ := h (pk, msg, sig) (by simp)
    rw [sigLoopV, hb]
    change sigLoopV sig_pp rest (r && b) = _
    rw [ih (r && b) (fun x hx => h x (List.mem_cons_of_mem _ hx))]
    cases b <;> simp [hb, Bool.and_assoc]

/-! ### Claim theorems: leaf operations -/

/-- **C2.** Every record returned by `generate_record` stores a commitment
that equals `rec_comm` applied to the byte concatenation of exactly
(owner public key, is-dummy flag, payload, birth-predicate digest,
death-predicate digest, serial-number nonce), in that order, under the stored
commitment randomness; every stored field equals the corresponding input
argument, with the two predicates reduced to their compact digests. -/
theorem generate_record_spec (C : Components)
    (pp : CommCRHSigPublicParameters) (sn_nonce : Nat)
    (apk : AddressPublicKey) (dum : Bool) (payload : Bytes)
    (birth death : DPCPredicate) (rng : RngState) (rec : DPCRecord)
    (rng' : RngState)
    (h : generate_record C pp sn_nonce apk dum payload birth death rng
      = .ok (rec, rng')) :
    rec.address_public_key = apk ∧ rec.is_dummy = dum ∧
    rec.payload = payload ∧
    rec.birth_predicate_repr = C.intoCompactRepr birth ∧
    rec.death_predicate_repr = C.intoCompactRepr death ∧
    rec.serial_number_nonce = sn_nonce ∧
    pp.rec_comm_pp (C.serAddrComm rec.address_public_key.public_key ++
        serBool rec.is_dummy ++ rec.payload ++ rec.birth_predicate_repr ++
        rec.death_predicate_repr ++ C.serCRHOut rec.serial_number_nonce)
      rec.commitment_randomness = .ok rec.commitment := by
  unfold generate_record at h
  dsimp only at h
  split at h
  · cases h
  · rename_i commitment heq
    injection h with h1
    injection h1 with h2 h3
    subst h2
    exact ⟨rfl, rfl, rfl, rfl, rfl, rfl, heq⟩

/-- **C3.** `generate_sn` is deterministic — identical arguments give
identical results — and its output is exactly the secret key's signing public
key randomized by (the serialization of) the PRF of the record's nonce under
the secret key's PRF seed, returned together with that same randomizer. -/
theorem generate_sn_deterministic (C : Components)
    (pp : CommCRHSigPublicParameters) (record : DPCRecord)
    (ask : AddressSecretKey) :
    generate_sn C pp record ask = generate_sn C pp record ask ∧
    (∀ sn rz, generate_sn C pp record ask = .ok (sn, rz) →
      ∃ prf_input prf_seed prf_out,
        C.readPrfInput (C.serCRHOut record.serial_number_nonce)
          = .ok prf_input ∧
        C.readSeed (C.serSeed ask.sk_prf) = .ok prf_seed ∧
        C.prf prf_seed prf_input = .ok prf_out ∧
        rz = C.serPrfOut prf_out ∧
        pp.sig_pp.randomize_public_key ask.pk_sig (C.serPrfOut prf_out)
          = .ok sn) := by
  refine ⟨rfl, ?_⟩
  intro sn rz h
  unfold generate_sn at h
  dsimp only at h
  cases h1 : C.readPrfInput (C.serCRHOut record.serial_number_nonce) with
  | error e => simp [h1] at h
  | ok prf_input =>
    simp only [h1] at h
    cases h2 : C.readSeed (C.serSeed ask.sk_prf) with
    | error e => simp [h2] at h
    | ok prf_seed =>
      simp only [h2] at h
      cases h3 : C.prf prf_seed prf_input with
      | error e => simp [h3] at h
      | ok prf_out =>
        simp only [h3] at h
        cases h4 : pp.sig_pp.randomize_public_key ask.pk_sig
            (C.serPrfOut prf_out) with
        | error e => simp [h4] at h
        | ok sn0 =>
          simp only [h4] at h
          injection h with h5
          injection h5 with h6 h7
          subst h6
          exact ⟨prf_input, prf_seed, prf_out, rfl, rfl, h3, h7.symm, h4⟩

/-- **C9.** Every `AddressKeyPair` returned by `create_address` has
`public_key = addr_comm(serialize(pk_sig) ‖ serialize(sk_prf) ‖ metadata;
r_pk)`, where `pk_sig`, `sk_prf`, `metadata` and `r_pk` are all stored in the
secret key (so the public key is recomputable from the secret key alone), and
the stored metadata is the input metadata. -/
theorem create_address_spec (C : Components) (params : PublicParameters)
    (metadata : Bytes) (rng : RngState) (pair : AddressPair)
    (rng' : RngState)
    (h : create_address C params metadata rng = .ok (pair, rng')) :
    params.comm_crh_sig_pp.addr_comm_pp
        (C.serSigPk pair.secret_key.pk_sig ++
         C.serSeed pair.secret_key.sk_prf ++ pair.secret_key.metadata)
        pair.secret_key.r_pk = .ok pair.public_key.public_key ∧
    pair.secret_key.metadata = metadata := by
  unfold create_address create_address_helper at h
  dsimp only at h
  cases h1 : params.comm_crh_sig_pp.sig_pp.keygen rng.next.1 with
  | error e => simp [h1] at h
  | ok ks =>
    simp only [h1] at h
    cases h2 : C.readSeed (rng.next.2.gen32.1) with
    | error e => simp [h2] at h
    | ok sk_prf =>
      simp only [h2] at h
      split at h
      · exact absurd h (by simp)
      · rename_i public_key h3
        injection h with h4
        injection h4 with h5 h6
        subst h5
        exact ⟨h3, rfl⟩

/-! ### A concrete executable instantiation

Used to exercise the generic theorems on closed inputs. -/

/-- A byte-string encoding that distinguishes the short byte strings arising
in the concrete tests. -/
def encB (bs : Bytes) : Nat := bs.foldl (fun a b => a * 256 + b % 256 + 1) 1

/-- Concrete `Components`: singleton-list codecs over `Nat`. -/
def cComp (nin nout : Nat) : Components where
  NUM_INPUT_RECORDS := nin
  NUM_OUTPUT_RECORDS := nout
  serSigPk := fun n => [n]
  serAddrComm := fun n => [n]
  serRecComm := fun n => [n]
  serCRHOut := fun n => [n]
  serSeed := fun n => [n]
  serPrfOut := fun n => [n]
  serDigest := fun n => [n]
  serProofCore := fun n => [n]
  serProofPred := fun n => [n]
  readPrfInput := fun bs => .ok (encB bs)
  readSeed := fun bs => .ok (encB bs)
  prf := fun s i => .ok (s + i)
  intoCompactRepr := fun n => [n]
  dummy_witness := 0

/-- Concrete signature scheme operations (accept-everything verifier). -/
def cSig : SigParams where
  keygen := fun v => .ok (v, v + 1000)
  sign := fun sk msg rv => .ok (sk * 31 + encB msg % 7 + rv)
  verify := fun _ _ _ => .ok true
  randomize_public_key := fun pk rz => .ok (pk * 1000 + encB rz % 1000)
  randomize_signature := fun s rz => .ok (s + encB rz % 1000)

/-- Concrete commitment / CRH public parameters. -/
def cPP : CommCRHSigPublicParameters where
  addr_comm_pp := fun input r => .ok (encB input * 1000 + r % 1000)
  rec_comm_pp := fun input r => .ok (encB input * 1000 + r % 1000)
  pred_vk_comm_pp := fun input r => .ok (encB input * 1000 + r % 1000)
  local_data_comm_pp := fun input r => .ok (encB input * 1000 + r % 1000)
  sn_nonce_crh_pp := fun input => .ok (encB input)
  sig_pp := cSig

/-- Concrete `PublicParameters` with accept-everything NIZK verifiers. -/
def cParams : PublicParameters where
  comm_crh_sig_pp := cPP
  core_nizk_pp := (fun _ rv => .ok (rv + 7000), fun _ _ => .ok true)
  proof_check_nizk_pp := (fun _ rv => .ok (rv + 8000), fun _ _ => .ok true)

/-- Fallback record for total extraction functions. -/
def recFallback : DPCRecord :=
  ⟨⟨0⟩, false, [], [], [], 0, 0, 0⟩

/-- A concrete `generate_record` run. -/
def recResW : Except Err (DPCRecord × RngState) :=
  generate_record (cComp 1 1) cPP 5 ⟨9⟩ false [7] 11 12 ⟨[42], 0⟩

/-- The record produced by `recResW`. -/
def recW : DPCRecord :=
  match recResW with
  | .ok p => p.1
  | .error _ => recFallback

/-- The rng state left by `recResW`. -/
def recRngW : RngState :=
  match recResW with
  | .ok p => p.2
  | .error _ => ⟨[], 0⟩

/-- Witness for `generate_record_spec` at a concrete input. -/
theorem generate_record_spec_witness :
    recW.address_public_key = ⟨9⟩ ∧ recW.is_dummy = false ∧
    recW.payload = [7] ∧
    recW.birth_predicate_repr = (cComp 1 1).intoCompactRepr 11 ∧
    recW.death_predicate_repr = (cComp 1 1).intoCompactRepr 12 ∧
    recW.serial_number_nonce = 5 ∧
    cPP.rec_comm_pp ((cComp 1 1).serAddrComm recW.address_public_key.public_key
        ++ serBool recW.is_dummy ++ recW.payload ++ recW.birth_predicate_repr
        ++ recW.death_predicate_repr ++
        (cComp 1 1).serCRHOut recW.serial_number_nonce)
      recW.commitment_randomness = .ok recW.commitment :=
  generate_record_spec (cComp 1 1) cPP 5 ⟨9⟩ false [7] 11 12 ⟨[42], 0⟩
    recW recRngW (by decide)

/-- A concrete record for serial-number derivation. -/
def recSn : DPCRecord := ⟨⟨9⟩, false, [7], [11], [12], 5, 333, 42⟩

/-- A concrete address secret key. -/
def askW : AddressSecretKey := ⟨21, 22, 23, [1, 2], 24⟩

/-- A concrete `generate_sn` run. -/
def snResW : Except Err (Nat × Bytes) :=
  generate_sn (cComp 1 1) cPP recSn askW

/-- The serial number produced by `snResW`. -/
def snW : Nat :=
  match snResW with
  | .ok p => p.1
  | .error _ => 0

/-- The randomizer produced by `snResW`. -/
def rzW : Bytes :=
  match snResW with
  | .ok p => p.2
  | .error _ => []

/-- Witness for `generate_sn_deterministic` at a concrete input. -/
theorem generate_sn_deterministic_witness :
    ∃ prf_input prf_seed prf_out,
      (cComp 1 1).readPrfInput
          ((cComp 1 1).serCRHOut recSn.serial_number_nonce) = .ok prf_input ∧
      (cComp 1 1).readSeed ((cComp 1 1).serSeed askW.sk_prf) = .ok prf_seed ∧
      (cComp 1 1).prf prf_seed prf_input = .ok prf_out ∧
      rzW = (cComp 1 1).serPrfOut prf_out ∧
      cPP.sig_pp.randomize_public_key askW.pk_sig
        ((cComp 1 1).serPrfOut prf_out) = .ok snW :=
  (generate_sn_deterministic (cComp 1 1) cPP recSn askW).2 snW rzW (by decide)

/-- A concrete `create_address` run. -/
def addrResW : Except Err (AddressPair × RngState) :=
  create_address (cComp 1 1) cParams [3, 4] ⟨[100, 200], 0⟩

/-- The address pair produced by `addrResW`. -/
def addrPairW : AddressPair :=
  match addrResW with
  | .ok p => p.1
  | .error _ => ⟨⟨0⟩, ⟨0, 0, 0, [], 0⟩⟩

/-- The rng state left by `addrResW`. -/
def addrRngW : RngState :=
  match addrResW with
  | .ok p => p.2
  | .error _ => ⟨[], 0⟩

/-- Witness for `create_address_spec` at a concrete input. -/
theorem create_address_spec_witness :
    cParams.comm_crh_sig_pp.addr_comm_pp
        ((cComp 1 1).serSigPk addrPairW.secret_key.pk_sig ++
         (cComp 1 1).serSeed addrPairW.secret_key.sk_prf ++
         addrPairW.secret_key.metadata)
        addrPairW.secret_key.r_pk = .ok addrPairW.public_key.public_key ∧
    addrPairW.secret_key.metadata = [3, 4] :=
  create_address_spec (cComp 1 1) cParams [3, 4] ⟨[100, 200], 0⟩
    addrPairW addrRngW (by decide)

/-! ### The verifier's checks -/

/-- Check 1 of `verify` as a boolean: no old serial number is in the ledger. -/
def snLedgerCheck (t : DPCTransaction) (ledger : Ledger) : Bool :=
  t.old_serial_numbers.all fun sn => ! ledger.contains_sn sn

/-- Check 2 of `verify` as a boolean: the old serial numbers are pairwise
distinct. -/
def snDistinctCheck (t : DPCTransaction) : Bool :=
  t.old_serial_numbers.enum.all fun p =>
    t.old_serial_numbers.enum.all fun q => ! decide (p.1 ≠ q.1 ∧ p.2 = q.2)

/-- Check 3 of `verify` as a boolean: the embedded ledger digest validates. -/
def digestCheck (t : DPCTransaction) (ledger : Ledger) : Bool :=
  ledger.validate_digest t.stuff.digest

/-- Check 6 of `verify` as a boolean: every performed per-input signature
check returns `Ok(true)`. -/
def sigChecksPass (sig_pp : SigParams) (checks : List (Nat × Bytes × Nat)) :
    Bool :=
  checks.all fun c => decide (sig_pp.verify c.1 c.2.1 c.2.2 = .ok true)

theorem ite_not_and_false (b r : Bool) :
    (if ¬ b then r && false else r) = (r && b) := by
  cases b <;> simp

/-- **C1.**  (a) `verify` returns `Ok(true)` exactly when all six checks pass:
no old serial number already in the ledger, the transaction's own old serial
numbers pairwise distinct, the embedded ledger digest validated by the ledger,
the core proof accepted, the predicate proof accepted, and every
(serial number, signature) pair accepted against the recomputed signature
message.  (b) The checks accumulate by non-short-circuiting boolean AND:
whenever the sub-verifiers return values (rather than erroring), the result is
`Ok` of the conjunction of the individual check values — every check is still
evaluated and ANDed in even if an earlier one already failed. -/
theorem verify_spec (C : Components) (params : PublicParameters)
    (tx : DPCTransaction) (ledger : Ledger) :
    (verify C params tx ledger = .ok true ↔
      ((∀ sn ∈ tx.old_serial_numbers, ledger.contains_sn sn = false) ∧
       (∀ p ∈ tx.old_serial_numbers.enum, ∀ q ∈ tx.old_serial_numbers.enum,
          p.1 ≠ q.1 → p.2 ≠ q.2) ∧
       ledger.validate_digest tx.stuff.digest = true ∧
       params.core_nizk_pp.2 (coreInput params tx ledger)
         tx.stuff.core_proof = .ok true ∧
       params.proof_check_nizk_pp.2 (pcInput params tx)
         tx.stuff.predicate_proof = .ok true ∧
       (∀ c ∈ sigVerifyChecks C tx,
          params.comm_crh_sig_pp.sig_pp.verify c.1 c.2.1 c.2.2 = .ok true)))
    ∧
    (∀ b4 b5,
      params.core_nizk_pp.2 (coreInput params tx ledger)
        tx.stuff.core_proof = .ok b4 →
      params.proof_check_nizk_pp.2 (pcInput params tx)
        tx.stuff.predicate_proof = .ok b5 →
      (∀ c ∈ sigVerifyChecks C tx,
        ∃ b, params.comm_crh_sig_pp.sig_pp.verify c.1 c.2.1 c.2.2 = .ok b) →
      verify C params tx ledger = .ok
        (snLedgerCheck tx ledger && snDistinctCheck tx &&
         digestCheck tx ledger && b4 && b5 &&
         sigChecksPass params.comm_crh_sig_pp.sig_pp (sigVerifyChecks C tx))) := by
  constructor
  · unfold verify
    simp only [foldl_and_false, foldl_and_fn, Bool.true_and, ite_not_and_false]
    cases h4 : params.core_nizk_pp.2 (coreInput params tx ledger)
        tx.stuff.core_proof with
    | error e => simp [h4]
    | ok b =>
      cases h5 : params.proof_check_nizk_pp.2 (pcInput params tx)
          tx.stuff.predicate_proof with
      | error e => simp [h5]
      | ok b2 =>
        rw [sigLoopV_ok_true_iff]
        simp only [Bool.and_eq_true, List.all_eq_true, Bool.not_eq_eq_eq_not,
          Bool.not_true, decide_eq_false_iff_not, not_and, ne_eq,
          Except.ok.injEq, Bool.decide_coe]
        constructor
        · rintro ⟨⟨⟨⟨⟨hc1, hc2⟩, hc3⟩, hb⟩, hb2⟩, hsig⟩
          subst hb
          subst hb2
          refine ⟨?_, ?_, hc3, rfl, rfl, hsig⟩
          · intro sn hsn
            have := hc1 sn hsn
            simpa using this
          · intro p hp q hq hne
            exact hc2 p hp q hq hne
        · rintro ⟨hc1, hc2, hc3, hb, hb2, hsig⟩
          rw [hb, hb2]
          refine ⟨⟨⟨⟨⟨?_, ?_⟩, hc3⟩, rfl⟩, rfl⟩, hsig⟩
          · intro sn hsn
            simpa using hc1 sn hsn
          · intro p hp q hq hne
            exact hc2 p hp q hq hne
  · intro b4 b5 h4 h5 hs
    unfold verify
    simp only [foldl_and_false, foldl_and_fn, Bool.true_and, ite_not_and_false,
      h4, h5]
    rw [sigLoopV_all_ok _ _ _ hs]
    simp only [snLedgerCheck, snDistinctCheck, digestCheck, sigChecksPass,
      Bool.decide_coe]

/-- A concrete ledger whose only valid digest is `77`, containing no serial
numbers. -/
def cLedger : Ledger :=
  ⟨0, .ok 77, fun d => d == 77, fun _ => false, fun c => .ok (c + 1)⟩

/-- A concrete well-formed transaction: two serial numbers, two signatures. -/
def tx1 : DPCTransaction := ⟨[3, 4], [9], [1], ⟨77, 5, 6, 7, 8, [30, 31]⟩⟩

/-- Witness for `verify_spec` at a concrete input: all six checks pass and
`verify` returns `Ok(true)`. -/
theorem verify_spec_witness :
    verify (cComp 2 0) cParams tx1 cLedger = .ok true :=
  ((verify_spec (cComp 2 0) cParams tx1 cLedger).2 true true (by decide)
    (by decide) (by decide)).trans (by decide)

/-- Signature scheme whose verifier errors on public key `5` and accepts
everything else: if `verify` ever checked a pair with public key `5`, the
whole call would return that error. -/
def cSig10 : SigParams where
  keygen := fun v => .ok (v, v + 1000)
  sign := fun sk _ rv => .ok (sk + rv)
  verify := fun pk _ _ => if pk = 5 then .error (.scheme 9) else .ok true
  randomize_public_key := fun pk rz => .ok (pk + encB rz)
  randomize_signature := fun s rz => .ok (s + encB rz)

/-- Public parameters built on `cSig10`, with accept-everything NIZK
verifiers. -/
def cParams10 : PublicParameters where
  comm_crh_sig_pp := { cPP with sig_pp := cSig10 }
  core_nizk_pp := (fun _ rv => .ok rv, fun _ _ => .ok true)
  proof_check_nizk_pp := (fun _ rv => .ok rv, fun _ _ => .ok true)

/-- A transaction with two old serial numbers (`3` and `5`) but only one
signature. -/
def tx10 : DPCTransaction := ⟨[3, 5], [], [], ⟨77, 0, 0, 0, 0, [30]⟩⟩

/-- **C10.** `verify` pairs old serial numbers with signatures positionally
and stops at the shorter list: `tx10` carries fewer signatures than consumed
inputs, the unmatched serial number `5` is never signature-checked (checking
it would return the error `scheme 9`, by the second conjunct), and `verify`
still returns `Ok(true)` because all performed checks pass. -/
theorem verify_truncates_signature_pairs :
    tx10.stuff.signatures.length < tx10.old_serial_numbers.length ∧
    cSig10.verify 5 (signatureMessage (cComp 2 0) tx10) 0
      = .error (.scheme 9) ∧
    verify (cComp 2 0) cParams10 tx10 cLedger = .ok true := by
  decide

/-! ### Characterization of the `execute_helper` loops -/

theorem generate_record_nonce (C : Components)
    (pp : CommCRHSigPublicParameters) (sn_nonce : Nat)
    (apk : AddressPublicKey) (dum : Bool) (payload : Bytes)
    (birth death : DPCPredicate) (rng : RngState) (rec : DPCRecord)
    (rng' : RngState)
    (h : generate_record C pp sn_nonce apk dum payload birth death rng
      = .ok (rec, rng')) :
    rec.serial_number_nonce = sn_nonce := by
  unfold generate_record at h
  dsimp only at h
  split at h
  · cases h
  · injection h with h1
    injection h1 with h2 h3
    subst h2
    rfl

theorem processInput_spec (C : Components)
    (params : CommCRHSigPublicParameters) (ledger : Ledger)
    (l : List (DPCRecord × AddressSecretKey)) (ws sns : List Nat)
    (rzs : List Bytes) (joint : Bytes) (dhs : List Bytes)
    (h : processInput C params ledger l = .ok (ws, sns, rzs, joint, dhs)) :
    sns.length = l.length ∧ rzs.length = l.length ∧
    joint = (sns.map C.serSigPk).flatten ∧
    (∀ i pr, l.get? i = some pr →
      ∃ sn rz, generate_sn C params pr.1 pr.2 = .ok (sn, rz) ∧
        sns.get? i = some sn ∧ rzs.get? i = some rz) := by
  induction l generalizing ws sns rzs joint dhs with
  | nil =>
    rw [processInput] at h
    cases h
    refine ⟨rfl, rfl, rfl, ?_⟩
    intro i pr hpr
    simp at hpr
  | cons p rest ih =>
    rw [processInput] at h
    rcases hw : (if p.1.is_dummy then Res.ok C.dummy_witness
        else liftE (ledger.prove_cm p.1.commitment)) with w | e | pn
    · rw [hw] at h
      change Res.bind (liftE (generate_sn C params p.1 p.2)) _ = _ at h
      cases hsn : generate_sn C params p.1 p.2 with
      | error e => rw [hsn] at h; cases h
      | ok snrz =>
        rw [hsn] at h
        change Res.bind (processInput C params ledger rest) _ = _ at h
        cases hrest : processInput C params ledger rest with
        | ok r =>
          obtain ⟨ws0, sns0, rzs0, joint0, dhs0⟩ := r
          rw [hrest] at h
          cases h
          obtain ⟨hl1, hl2, hj, hget⟩ := ih ws0 sns0 rzs0 joint0 dhs0 hrest
          refine ⟨by simp [hl1], by simp [hl2], by simp [hj], ?_⟩
          intro i pr hpr
          cases i with
          | zero =>
            cases hpr
            exact ⟨snrz.1, snrz.2, hsn, rfl, rfl⟩
          | succ i =>
            exact hget i pr hpr
        | err e => rw [hrest] at h; cases h
        | panic pn => rw [hrest] at h; cases h
    · rw [hw] at h; cases h
    · rw [hw] at h; cases h

theorem processInput_no_panic (C : Components)
    (params : CommCRHSigPublicParameters) (ledger : Ledger)
    (l : List (DPCRecord × AddressSecretKey)) (pn : Pan) :
    processInput C params ledger l ≠ .panic pn := by
  induction l with
  | nil => rw [processInput]; intro h; cases h
  | cons p rest ih =>
    rw [processInput]
    rcases hw : (if p.1.is_dummy then Res.ok C.dummy_witness
        else liftE (ledger.prove_cm p.1.commitment)) with w | e | pn2
    · intro h
      change Res.bind (liftE (generate_sn C params p.1 p.2)) _ = _ at h
      cases hsn : generate_sn C params p.1 p.2 with
      | error e => rw [hsn] at h; cases h
      | ok snrz =>
        rw [hsn] at h
        change Res.bind (processInput C params ledger rest) _ = _ at h
        cases hrest : processInput C params ledger rest with
        | ok r => rw [hrest] at h; cases h
        | err e => rw [hrest] at h; cases h
        | panic pn3 =>
          rw [hrest] at h
          cases h
          exact ih hrest
    · intro h; cases h
    · split at hw
      · cases hw
      · rcases hpg : ledger.prove_cm p.1.commitment with a | e2
        · rw [hpg] at hw; cases hw
        · rw [hpg] at hw; cases hw

theorem processOutput_spec (C : Components)
    (params : CommCRHSigPublicParameters) (joint : Bytes)
    (l : List (AddressPublicKey × Bool × Bytes × DPCPredicate × DPCPredicate))
    (j : Nat) (recs : List DPCRecord) (rands : List Bytes)
    (comms : List Nat) (rng rng1 : RngState)
    (h : processOutput C params joint j l rng
      = .ok (recs, rands, comms, rng1)) :
    recs.length = l.length ∧ rands.length = l.length ∧
    (∀ i rec rand, recs.get? i = some rec → rands.get? i = some rand →
      rand.length = 32 ∧
      params.sn_nonce_crh_pp (((j + i) % 256) :: (rand ++ joint))
        = .ok rec.serial_number_nonce) := by
  induction l generalizing j recs rands comms rng rng1 with
  | nil =>
    rw [processOutput] at h
    cases h
    refine ⟨rfl, rfl, ?_⟩
    intro i rec rand hrec hrand
    simp at hrec
  | cons arg rest ih =>
    rw [processOutput] at h
    change Res.bind (liftE (params.sn_nonce_crh_pp _)) _ = _ at h
    cases hcrh : params.sn_nonce_crh_pp
        ((j % 256) :: (rng.gen32.1 ++ joint)) with
    | error e => rw [hcrh] at h; cases h
    | ok sn_nonce =>
      rw [hcrh] at h
      change Res.bind (liftE (generate_record C params sn_nonce arg.1 arg.2.1
        arg.2.2.1 arg.2.2.2.1 arg.2.2.2.2 rng.gen32.2)) _ = _ at h
      cases hgr : generate_record C params sn_nonce arg.1 arg.2.1 arg.2.2.1
          arg.2.2.2.1 arg.2.2.2.2 rng.gen32.2 with
      | error e => rw [hgr] at h; cases h
      | ok recrng =>
        rw [hgr] at h
        change Res.bind (processOutput C params joint (j + 1) rest recrng.2)
          _ = _ at h
        cases hrest : processOutput C params joint (j + 1) rest recrng.2 with
        | ok r =>
          obtain ⟨recs0, rands0, comms0, rng0⟩ := r
          rw [hrest] at h
          cases h
          obtain ⟨hl1, hl2, hget⟩ := ih (j + 1) recs0 rands0 comms0
            recrng.2 rng0 hrest
          refine ⟨by simp [hl1], by simp [hl2], ?_⟩
          intro i rec rand hrec hrand
          cases i with
          | zero =>
            cases hrec
            cases hrand
            refine ⟨RngState.gen32_length rng, ?_⟩
            rw [Nat.add_zero]
            rw [generate_record_nonce C params sn_nonce arg.1 arg.2.1
              arg.2.2.1 arg.2.2.2.1 arg.2.2.2.2 rng.gen32.2 recrng.1
              recrng.2 ?hgr2]
            · exact hcrh
            case hgr2 =>
              rw [hgr]
          | succ i =>
            have hres := hget i rec rand hrec hrand
            refine ⟨hres.1, ?_⟩
            have : j + 1 + i = j + (i + 1) := by omega
            rw [this] at hres
            exact hres.2
        | err e => rw [hrest] at h; cases h
        | panic pn => rw [hrest] at h; cases h

theorem processOutput_no_panic (C : Components)
    (params : CommCRHSigPublicParameters) (joint : Bytes)
    (l : List (AddressPublicKey × Bool × Bytes × DPCPredicate × DPCPredicate))
    (j : Nat) (rng : RngState) (pn : Pan) :
    processOutput C params joint j l rng ≠ .panic pn := by
  induction l generalizing j rng with
  | nil => rw [processOutput]; intro h; cases h
  | cons arg rest ih =>
    rw [processOutput]
    intro h
    change Res.bind (liftE (params.sn_nonce_crh_pp _)) _ = _ at h
    cases hcrh : params.sn_nonce_crh_pp
        ((j % 256) :: (rng.gen32.1 ++ joint)) with
    | error e => rw [hcrh] at h; cases h
    | ok sn_nonce =>
      rw [hcrh] at h
      change Res.bind (liftE (generate_record C params sn_nonce arg.1 arg.2.1
        arg.2.2.1 arg.2.2.2.1 arg.2.2.2.2 rng.gen32.2)) _ = _ at h
      cases hgr : generate_record C params sn_nonce arg.1 arg.2.1 arg.2.2.1
          arg.2.2.2.1 arg.2.2.2.2 rng.gen32.2 with
      | error e => rw [hgr] at h; cases h
      | ok recrng =>
        rw [hgr] at h
        change Res.bind (processOutput C params joint (j + 1) rest recrng.2)
          _ = _ at h
        cases hrest : processOutput C params joint (j + 1) rest recrng.2 with
        | ok r => rw [hrest] at h; cases h
        | err e => rw [hrest] at h; cases h
        | panic pn3 =>
          rw [hrest] at h
          cases h
          exact ih (j + 1) recrng.2 hrest

theorem executeHelper_ok_inversion (C : Components)
    (pp : CommCRHSigPublicParameters) (oldRecs : List DPCRecord)
    (oldKeys : List AddressSecretKey) (apks : List AddressPublicKey)
    (dums : List Bool) (pays : List Bytes)
    (births deaths : List DPCPredicate) (memo aux : Bytes) (ledger : Ledger)
    (rng0 : RngState) (ctx : ExecuteContext) (rngE : RngState)
    (h : executeHelper C pp oldRecs oldKeys apks dums pays births deaths
      memo aux ledger rng0 = .ok (ctx, rngE)) :
    ∃ ws joint dhs comms rng1,
      processInput C pp ledger (oldRecs.zip oldKeys)
        = .ok (ws, ctx.old_serial_numbers, ctx.old_randomizers, joint, dhs) ∧
      processOutput C pp joint 0
          (apks.zip (dums.zip (pays.zip (births.zip deaths)))) rng0
        = .ok (ctx.new_records, ctx.new_sn_nonce_randomness, comms, rng1) ∧
      ctx.new_commitments = comms ∧
      ctx.local_data_rand = rng1.next.1 ∧
      pp.local_data_comm_pp
          (predicateInputBytes C oldRecs ctx.old_serial_numbers
            ctx.new_records memo aux)
          ctx.local_data_rand = .ok ctx.local_data_comm ∧
      ledger.digest = .ok ctx.ledger_digest ∧
      ctx.old_records = oldRecs ∧
      ctx.old_address_secret_keys = oldKeys := by
  rw [executeHelper] at h
  split at h
  · cases h
  split at h
  · cases h
  split at h
  · cases h
  split at h
  · cases h
  split at h
  · cases h
  split at h
  · cases h
  split at h
  · cases h
  rw [executeHelperBody] at h
  cases hin : processInput C pp ledger (oldRecs.zip oldKeys) with
  | err e => rw [hin] at h; cases h
  | panic pn => rw [hin] at h; cases h
  | ok inres =>
    obtain ⟨ws, sns, rzs, joint, dhs⟩ := inres
    rw [hin] at h
    change Res.bind (processOutput C pp joint 0
      (apks.zip (dums.zip (pays.zip (births.zip deaths)))) rng0) _ = _ at h
    cases hout : processOutput C pp joint 0
        (apks.zip (dums.zip (pays.zip (births.zip deaths)))) rng0 with
    | err e => rw [hout] at h; cases h
    | panic pn => rw [hout] at h; cases h
    | ok outres =>
      obtain ⟨recs, rands, comms, rng1⟩ := outres
      rw [hout] at h
      change Res.bind (liftE (pp.local_data_comm_pp
        (predicateInputBytes C oldRecs sns recs memo aux) rng1.next.1))
        _ = _ at h
      cases hldc : pp.local_data_comm_pp
          (predicateInputBytes C oldRecs sns recs memo aux) rng1.next.1 with
      | error e => rw [hldc] at h; cases h
      | ok ldc =>
        rw [hldc] at h
        change Res.bind (liftE (pp.pred_vk_comm_pp
          (dhs.flatten ++ (recs.map (fun r => r.birth_predicate_repr)).flatten)
          rng1.next.2.next.1)) _ = _ at h
        cases hpc : pp.pred_vk_comm_pp
            (dhs.flatten ++
              (recs.map (fun r => r.birth_predicate_repr)).flatten)
            rng1.next.2.next.1 with
        | error e => rw [hpc] at h; cases h
        | ok pc =>
          rw [hpc] at h
          change (match ledger.digest with
            | .error _ => Res.panic (.expectFailed "could not get digest")
            | .ok ledger_digest => Res.ok (_, _)) = _ at h
          cases hdig : ledger.digest with
          | error e => rw [hdig] at h; cases h
          | ok d =>
            rw [hdig] at h
            cases h
            exact ⟨ws, joint, dhs, comms, rng1, rfl, hout, rfl, rfl, hldc,
              rfl, rfl, rfl⟩

theorem executeHelperBody_no_assert (C : Components)
    (pp : CommCRHSigPublicParameters) (oldRecs : List DPCRecord)
    (oldKeys : List AddressSecretKey) (apks : List AddressPublicKey)
    (dums : List Bool) (pays : List Bytes)
    (births deaths : List DPCPredicate) (memo aux : Bytes) (ledger : Ledger)
    (rng0 : RngState) :
    executeHelperBody C pp oldRecs oldKeys apks dums pays births deaths
      memo aux ledger rng0 ≠ .panic .assertFailed := by
  intro h
  rw [executeHelperBody] at h
  cases hin : processInput C pp ledger (oldRecs.zip oldKeys) with
  | err e => rw [hin] at h; cases h
  | panic pn => exact processInput_no_panic C pp ledger _ pn hin
  | ok inres =>
    obtain ⟨ws, sns, rzs, joint, dhs⟩ := inres
    rw [hin] at h
    change Res.bind (processOutput C pp joint 0
      (apks.zip (dums.zip (pays.zip (births.zip deaths)))) rng0) _ = _ at h
    cases hout : processOutput C pp joint 0
        (apks.zip (dums.zip (pays.zip (births.zip deaths)))) rng0 with
    | err e => rw [hout] at h; cases h
    | panic pn => exact processOutput_no_panic C pp joint _ 0 rng0 pn hout
    | ok outres =>
      obtain ⟨recs, rands, comms, rng1⟩ := outres
      rw [hout] at h
      change Res.bind (liftE (pp.local_data_comm_pp
        (predicateInputBytes C oldRecs sns recs memo aux) rng1.next.1))
        _ = _ at h
      cases hldc : pp.local_data_comm_pp
          (predicateInputBytes C oldRecs sns recs memo aux) rng1.next.1 with
      | error e => rw [hldc] at h; cases h
      | ok ldc =>
        rw [hldc] at h
        change Res.bind (liftE (pp.pred_vk_comm_pp
          (dhs.flatten ++ (recs.map (fun r => r.birth_predicate_repr)).flatten)
          rng1.next.2.next.1)) _ = _ at h
        cases hpc : pp.pred_vk_comm_pp
            (dhs.flatten ++
              (recs.map (fun r => r.birth_predicate_repr)).flatten)
            rng1.next.2.next.1 with
        | error e => rw [hpc] at h; cases h
        | ok pc =>
          rw [hpc] at h
          change (match ledger.digest with
            | .error _ => Res.panic (.expectFailed "could not get digest")
            | .ok ledger_digest => Res.ok (_, _)) = _ at h
          cases hdig : ledger.digest with
          | error e =>
            rw [hdig] at h
            injection h with h2
            cases h2
          | ok d => rw [hdig] at h; cases h

/-- **C8.** `execute_helper` panics on its arity `assert_eq!`s exactly when
the arity precondition is violated: exactly `NUM_INPUT_RECORDS` old records
and as many old secret keys, and exactly `NUM_OUTPUT_RECORDS` entries in each
of the five new-record argument slices, must be supplied.  A violation fails
immediately with the assertion panic (fatal, not a returned error), and under
the precondition no assertion panic can occur anywhere in the call. -/
theorem executeHelper_arity (C : Components)
    (pp : CommCRHSigPublicParameters) (oldRecs : List DPCRecord)
    (oldKeys : List AddressSecretKey) (apks : List AddressPublicKey)
    (dums : List Bool) (pays : List Bytes)
    (births deaths : List DPCPredicate) (memo aux : Bytes) (ledger : Ledger)
    (rng0 : RngState) :
    executeHelper C pp oldRecs oldKeys apks dums pays births deaths memo aux
        ledger rng0 = .panic .assertFailed ↔
      ¬ (C.NUM_INPUT_RECORDS = oldRecs.length ∧
         C.NUM_INPUT_RECORDS = oldKeys.length ∧
         C.NUM_OUTPUT_RECORDS = apks.length ∧
         C.NUM_OUTPUT_RECORDS = dums.length ∧
         C.NUM_OUTPUT_RECORDS = pays.length ∧
         C.NUM_OUTPUT_RECORDS = births.length ∧
         C.NUM_OUTPUT_RECORDS = deaths.length) := by
  rw [executeHelper]
  by_cases h1 : C.NUM_INPUT_RECORDS ≠ oldRecs.length
  · rw [if_pos h1]
    exact iff_of_true rfl (fun hc => h1 hc.1)
  rw [if_neg h1]
  by_cases h2 : C.NUM_INPUT_RECORDS ≠ oldKeys.length
  · rw [if_pos h2]
    exact iff_of_true rfl (fun hc => h2 hc.2.1)
  rw [if_neg h2]
  by_cases h3 : C.NUM_OUTPUT_RECORDS ≠ apks.length
  · rw [if_pos h3]
    exact iff_of_true rfl (fun hc => h3 hc.2.2.1)
  rw [if_neg h3]
  by_cases h4 : C.NUM_OUTPUT_RECORDS ≠ dums.length
  · rw [if_pos h4]
    exact iff_of_true rfl (fun hc => h4 hc.2.2.2.1)
  rw [if_neg h4]
  by_cases h5 : C.NUM_OUTPUT_RECORDS ≠ pays.length
  · rw [if_pos h5]
    exact iff_of_true rfl (fun hc => h5 hc.2.2.2.2.1)
  rw [if_neg h5]
  by_cases h6 : C.NUM_OUTPUT_RECORDS ≠ births.length
  · rw [if_pos h6]
    exact iff_of_true rfl (fun hc => h6 hc.2.2.2.2.2.1)
  rw [if_neg h6]
  by_cases h7 : C.NUM_OUTPUT_RECORDS ≠ deaths.length
  · rw [if_pos h7]
    exact iff_of_true rfl (fun hc => h7 hc.2.2.2.2.2.2)
  rw [if_neg h7]
  constructor
  · intro h
    exact absurd h (executeHelperBody_no_assert C pp oldRecs oldKeys apks
      dums pays births deaths memo aux ledger rng0)
  · intro hc
    exact absurd ⟨not_not.mp h1, not_not.mp h2, not_not.mp h3, not_not.mp h4,
      not_not.mp h5, not_not.mp h6, not_not.mp h7⟩ hc

/-- **C7 amended.** If reading the current ledger digest fails,
`execute_helper` cannot succeed — but the failure is not a `LedgerError`
returned to the caller: the reachable digest read panics through
`.expect("could not get digest")` (see the counterexample
`executeHelper_digest_panic_cex`). -/
theorem executeHelper_digest_unavailable (C : Components)
    (pp : CommCRHSigPublicParameters) (oldRecs : List DPCRecord)
    (oldKeys : List AddressSecretKey) (apks : List AddressPublicKey)
    (dums : List Bool) (pays : List Bytes)
    (births deaths : List DPCPredicate) (memo aux : Bytes) (ledger : Ledger)
    (rng0 : RngState) (e : Err) (hd : ledger.digest = .error e) :
    (executeHelper C pp oldRecs oldKeys apks dums pays births deaths memo aux
      ledger rng0).isOk = false := by
  cases hres : executeHelper C pp oldRecs oldKeys apks dums pays births
      deaths memo aux ledger rng0 with
  | ok p =>
    obtain ⟨ws, joint, dhs, comms, rng1, g1, g2, g3, g4, g5, g6, g7, g8⟩ :=
      executeHelper_ok_inversion C pp oldRecs oldKeys apks dums pays births
        deaths memo aux ledger rng0 p.1 p.2 (by rw [hres])
    rw [hd] at g6
    cases g6
  | err e2 => rfl
  | panic pn => rfl

/-- A ledger whose digest read fails. -/
def ledgerBad : Ledger :=
  ⟨0, .error (.ledger 3), fun d => d == 77, fun _ => false, fun c => .ok (c + 1)⟩

/-- A concrete `execute_helper` run against `ledgerBad` (no inputs, no
outputs, so the digest read is reached). -/
def ehC7 : Res (ExecuteContext × RngState) :=
  executeHelper (cComp 0 0) cPP [] [] [] [] [] [] [] [] [] ledgerBad ⟨[], 0⟩

/-- **C7 counterexample.**  When the ledger digest is unavailable,
`execute_helper` does not fail with a propagated `LedgerError` as the claim
states: it panics via `expect("could not get digest")`. -/
theorem executeHelper_digest_panic_cex :
    ledgerBad.digest = .error (.ledger 3) ∧
    ehC7 = .panic (.expectFailed "could not get digest") :=
  ⟨rfl, rfl⟩

/-- Witness for `executeHelper_digest_unavailable` at a concrete input. -/
theorem executeHelper_digest_unavailable_witness :
    ledgerBad.digest = Except.error (Err.ledger 3) ∧ ehC7.isOk = false :=
  ⟨rfl, executeHelper_digest_unavailable (cComp 0 0) cPP [] [] [] [] [] [] []
    [] [] ledgerBad ⟨[], 0⟩ (.ledger 3) rfl⟩

/-- **C5 amended.** `local_data_comm` is a commitment, under the fresh
randomness stored in the context, whose pre-image interleaves each consumed
input's record serialization with that input's serial number — for each old
record in order, its serialization followed by its serial number — then the
serializations of the new records, then the memo and the auxiliary bytes
(`predicateInputBytes`).  The spec's block ordering (all old records, then all
old serial numbers: `localDataPreimageSpec`) is refuted by
`local_data_comm_spec_order_cex`. -/
theorem executeHelper_local_data_comm (C : Components)
    (pp : CommCRHSigPublicParameters) (oldRecs : List DPCRecord)
    (oldKeys : List AddressSecretKey) (apks : List AddressPublicKey)
    (dums : List Bool) (pays : List Bytes)
    (births deaths : List DPCPredicate) (memo aux : Bytes) (ledger : Ledger)
    (rng0 : RngState) (ctx : ExecuteContext) (rngE : RngState)
    (h : executeHelper C pp oldRecs oldKeys apks dums pays births deaths
      memo aux ledger rng0 = .ok (ctx, rngE)) :
    pp.local_data_comm_pp
        (predicateInputBytes C oldRecs ctx.old_serial_numbers
          ctx.new_records memo aux)
        ctx.local_data_rand = .ok ctx.local_data_comm := by
  obtain ⟨ws, joint, dhs, comms, rng1, g1, g2, g3, g4, g5, g6, g7, g8⟩ :=
    executeHelper_ok_inversion C pp oldRecs oldKeys apks dums pays births
      deaths memo aux ledger rng0 ctx rngE h
  exact g5

/-- Records, keys and a run used for the C5 comparison: two consumed inputs,
no outputs. -/
def r1C5 : DPCRecord := ⟨⟨1⟩, false, [2], [3], [4], 5, 6, 7⟩

/-- Second concrete record. -/
def r2C5 : DPCRecord := ⟨⟨11⟩, false, [12], [13], [14], 15, 16, 17⟩

/-- Secret key for the first input. -/
def k1C5 : AddressSecretKey := ⟨21, 22, 23, [], 24⟩

/-- Secret key for the second input. -/
def k2C5 : AddressSecretKey := ⟨31, 32, 33, [], 34⟩

/-- A concrete successful `execute_helper` run with two inputs. -/
def ehC5 : Res (ExecuteContext × RngState) :=
  executeHelper (cComp 2 0) cPP [r1C5, r2C5] [k1C5, k2C5] [] [] [] [] []
    [41] [42] cLedger ⟨[], 0⟩

/-- Fallback context for total extraction. -/
def ctxFallback : ExecuteContext :=
  ⟨cPP, 0, [], [], [], [], [], [], [], [], 0, 0, 0, 0⟩

/-- The context produced by `ehC5`. -/
def ctxC5 : ExecuteContext :=
  match ehC5 with
  | .ok p => p.1
  | _ => ctxFallback

/-- The rng state left by `ehC5`. -/
def rngC5 : RngState :=
  match ehC5 with
  | .ok p => p.2
  | _ => ⟨[], 0⟩

/-- **C5 counterexample.** On a successful two-input run, committing the
spec's block-ordered byte string (old records ‖ old serial numbers ‖ new
records ‖ memo ‖ auxiliary) under the actual commitment randomness does not
give the actual `local_data_comm`: the code interleaves each old record's
serialization with its serial number instead. -/
theorem local_data_comm_spec_order_cex :
    ehC5.isOk = true ∧
    cPP.local_data_comm_pp
        (localDataPreimageSpec (cComp 2 0) [r1C5, r2C5]
          ctxC5.old_serial_numbers ctxC5.new_records [41] [42])
        ctxC5.local_data_rand ≠ .ok ctxC5.local_data_comm := by
  decide

/-- Witness for `executeHelper_local_data_comm` at a concrete input. -/
theorem executeHelper_local_data_comm_witness :
    cPP.local_data_comm_pp
        (predicateInputBytes (cComp 2 0) [r1C5, r2C5]
          ctxC5.old_serial_numbers ctxC5.new_records [41] [42])
        ctxC5.local_data_rand = .ok ctxC5.local_data_comm :=
  executeHelper_local_data_comm (cComp 2 0) cPP [r1C5, r2C5] [k1C5, k2C5]
    [] [] [] [] [] [41] [42] cLedger ⟨[], 0⟩ ctxC5 rngC5 rfl

/-- **C6.** On every successful `execute_helper` run, output slot `j`'s
serial-number nonce is the CRH of `j` (as one byte) followed by the 32 fresh
random bytes stored for that slot, followed by the concatenated serialized
serial numbers of all consumed inputs. -/
theorem executeHelper_new_nonce (C : Components)
    (pp : CommCRHSigPublicParameters) (oldRecs : List DPCRecord)
    (oldKeys : List AddressSecretKey) (apks : List AddressPublicKey)
    (dums : List Bool) (pays : List Bytes)
    (births deaths : List DPCPredicate) (memo aux : Bytes) (ledger : Ledger)
    (rng0 : RngState) (ctx : ExecuteContext) (rngE : RngState)
    (h : executeHelper C pp oldRecs oldKeys apks dums pays births deaths
      memo aux ledger rng0 = .ok (ctx, rngE)) :
    ctx.new_sn_nonce_randomness.length = ctx.new_records.length ∧
    ∀ j rec rand, ctx.new_records.get? j = some rec →
      ctx.new_sn_nonce_randomness.get? j = some rand →
      rand.length = 32 ∧
      pp.sn_nonce_crh_pp ((j % 256) ::
          (rand ++ (ctx.old_serial_numbers.map C.serSigPk).flatten))
        = .ok rec.serial_number_nonce := by
  obtain ⟨ws, joint, dhs, comms, rng1, g1, g2, g3, g4, g5, g6, g7, g8⟩ :=
    executeHelper_ok_inversion C pp oldRecs oldKeys apks dums pays births
      deaths memo aux ledger rng0 ctx rngE h
  obtain ⟨hi1, hi2, hjoint, hget⟩ := processInput_spec C pp ledger _ ws
    ctx.old_serial_numbers ctx.old_randomizers joint dhs g1
  obtain ⟨ho1, ho2, hnonce⟩ := processOutput_spec C pp joint _ 0
    ctx.new_records ctx.new_sn_nonce_randomness comms rng0 rng1 g2
  refine ⟨ho2.trans ho1.symm, ?_⟩
  intro j rec rand hrec hrand
  obtain ⟨hlen, hcrh⟩ := hnonce j rec rand hrec hrand
  refine ⟨hlen, ?_⟩
  rw [Nat.zero_add] at hcrh
  rw [← hjoint]
  exact hcrh

/-- A concrete successful `execute_helper` run with one input and one
output. -/
def ehC6 : Res (ExecuteContext × RngState) :=
  executeHelper (cComp 1 1) cPP [r1C5] [k1C5] [⟨51⟩] [false] [[52]] [53] [54]
    [41] [42] cLedger ⟨[], 0⟩

/-- The context produced by `ehC6`. -/
def ctxC6 : ExecuteContext :=
  match ehC6 with
  | .ok p => p.1
  | _ => ctxFallback

/-- The rng state left by `ehC6`. -/
def rngC6 : RngState :=
  match ehC6 with
  | .ok p => p.2
  | _ => ⟨[], 0⟩

theorem get?_zip_of {α β : Type} (l1 : List α) (l2 : List β) (i : Nat)
    (a : α) (b : β) (h1 : l1.get? i = some a) (h2 : l2.get? i = some b) :
    (l1.zip l2).get? i = some (a, b) := by
  induction l1 generalizing l2 i with
  | nil => simp at h1
  | cons x xs ih =>
    cases l2 with
    | nil => simp at h2
    | cons y ys =>
      cases i with
      | zero =>
        cases h1
        cases h2
        rfl
      | succ i => exact ih ys i h1 h2

theorem signLoop_spec (sig_pp : SigParams) (msg : Bytes)
    (l : List (AddressSecretKey × Bytes)) (rng rng' : RngState)
    (sigs : List Nat)
    (h : signLoop sig_pp msg l rng = .ok (sigs, rng')) :
    sigs.length = l.length ∧
    ∀ i kr sig, l.get? i = some kr → sigs.get? i = some sig →
      ∃ rv s, sig_pp.sign kr.1.sk_sig msg rv = .ok s ∧
        sig_pp.randomize_signature s kr.2 = .ok sig := by
  induction l generalizing rng rng' sigs with
  | nil =>
    rw [signLoop] at h
    cases h
    refine ⟨rfl, ?_⟩
    intro i kr sig hkr
    simp at hkr
  | cons kr rest ih =>
    rw [signLoop] at h
    change Res.bind (liftE (sig_pp.sign kr.1.sk_sig msg rng.next.1)) _ = _
      at h
    cases hs : sig_pp.sign kr.1.sk_sig msg rng.next.1 with
    | error e => rw [hs] at h; cases h
    | ok s =>
      rw [hs] at h
      change Res.bind (liftE (sig_pp.randomize_signature s kr.2)) _ = _ at h
      cases hr : sig_pp.randomize_signature s kr.2 with
      | error e => rw [hr] at h; cases h
      | ok rs =>
        rw [hr] at h
        change Res.bind (signLoop sig_pp msg rest rng.next.2) _ = _ at h
        cases hrest : signLoop sig_pp msg rest rng.next.2 with
        | err e => rw [hrest] at h; cases h
        | panic pn => rw [hrest] at h; cases h
        | ok r =>
          rw [hrest] at h
          cases h
          obtain ⟨hl, hget⟩ := ih rng.next.2 r.2 r.1 hrest
          refine ⟨by simp [hl], ?_⟩
          intro i kr2 sig hkr hsig
          cases i with
          | zero =>
            cases hkr
            cases hsig
            exact ⟨rng.next.1, s, hs, hr⟩
          | succ i => exact hget i kr2 sig hkr hsig

/-- **C4.** When `execute` succeeds, the transaction's signatures arise as
follows: the signature message is the serialization of (old serial numbers,
new commitments, memorandum, ledger digest, core proof, predicate proof) in
that order (`mkSignatureMessage`), and it equals the message
`signatureMessage` that `verify` recomputes from the transaction and checks
each (old serial number, signature) pair against (`sigVerifyChecks`); the
message is signed once per consumed input with that input's owner signing
secret key and the resulting signature re-randomized with exactly the
randomizer that `generate_sn` produced for that input's serial number, which
is the serial number stored in the transaction at the same position. -/
theorem execute_signing (C : Components) (params : PublicParameters)
    (oldRecs : List DPCRecord) (oldKeys : List AddressSecretKey)
    (oldGen : LocalData → List PrivatePredInput)
    (apks : List AddressPublicKey) (dums : List Bool) (pays : List Bytes)
    (births deaths : List DPCPredicate)
    (newGen : LocalData → List PrivatePredInput) (aux memo : Bytes)
    (ledger : Ledger) (rng0 : RngState) (newRecs : List DPCRecord)
    (tx : DPCTransaction) (rngE : RngState)
    (h : execute C params oldRecs oldKeys oldGen apks dums pays births deaths
      newGen aux memo ledger rng0 = .ok ((newRecs, tx), rngE)) :
    ∃ ctx rng1,
      executeHelper C params.comm_crh_sig_pp oldRecs oldKeys apks dums pays
        births deaths memo aux ledger rng0 = .ok (ctx, rng1) ∧
      tx.old_serial_numbers = ctx.old_serial_numbers ∧
      tx.new_commitments = ctx.new_commitments ∧
      tx.memorandum = memo ∧
      tx.stuff.digest = ctx.ledger_digest ∧
      signatureMessage C tx = mkSignatureMessage C ctx.old_serial_numbers
        ctx.new_commitments memo ctx.ledger_digest tx.stuff.core_proof
        tx.stuff.predicate_proof ∧
      (∀ i rec key, oldRecs.get? i = some rec → oldKeys.get? i = some key →
        ∃ sn rz, generate_sn C params.comm_crh_sig_pp rec key
            = .ok (sn, rz) ∧
          tx.old_serial_numbers.get? i = some sn ∧
          ctx.old_randomizers.get? i = some rz) ∧
      ctx.old_address_secret_keys = oldKeys ∧
      tx.stuff.signatures.length
        = (ctx.old_address_secret_keys.zip ctx.old_randomizers).length ∧
      (∀ i kr sig,
        (ctx.old_address_secret_keys.zip ctx.old_randomizers).get? i
          = some kr →
        tx.stuff.signatures.get? i = some sig →
        ∃ rv s, params.comm_crh_sig_pp.sig_pp.sign kr.1.sk_sig
            (signatureMessage C tx) rv = .ok s ∧
          params.comm_crh_sig_pp.sig_pp.randomize_signature s kr.2
            = .ok sig) := by
  rw [execute] at h
  cases hctx : executeHelper C params.comm_crh_sig_pp oldRecs oldKeys apks
      dums pays births deaths memo aux ledger rng0 with
  | err e => rw [hctx] at h; cases h
  | panic pn => rw [hctx] at h; cases h
  | ok p =>
    rw [hctx] at h
    simp only [Res.bind_ok] at h
    cases hcp : params.core_nizk_pp.1
        (mkCoreCircuit params ledger p.1 memo aux) p.2.next.1 with
    | error e => rw [hcp] at h; cases h
    | ok core_proof =>
      rw [hcp] at h
      simp only [liftE_ok, Res.bind_ok] at h
      cases hpp : params.proof_check_nizk_pp.1
          (mkProofCheckCircuit params (oldGen p.1.into_local_data)
            (newGen p.1.into_local_data) p.1) p.2.next.2.next.1 with
      | error e => rw [hpp] at h; cases h
      | ok pred_proof =>
        rw [hpp] at h
        simp only [liftE_ok, Res.bind_ok] at h
        cases hsl : signLoop params.comm_crh_sig_pp.sig_pp
            (mkSignatureMessage C p.1.old_serial_numbers p.1.new_commitments
              memo p.1.ledger_digest core_proof pred_proof)
            (p.1.old_address_secret_keys.zip p.1.old_randomizers)
            p.2.next.2.next.2 with
        | err e => rw [hsl] at h; cases h
        | panic pn => rw [hsl] at h; cases h
        | ok sp =>
          rw [hsl] at h
          simp only [Res.bind_ok] at h
          cases h
          obtain ⟨ws, joint, dhs, comms, rng1, g1, g2, g3, g4, g5, g6, g7,
            g8⟩ := executeHelper_ok_inversion C params.comm_crh_sig_pp
              oldRecs oldKeys apks dums pays births deaths memo aux ledger
              rng0 p.1 p.2 (by rw [hctx])
          obtain ⟨hi1, hi2, hjoint, hget⟩ := processInput_spec C
            params.comm_crh_sig_pp ledger _ ws p.1.old_serial_numbers
            p.1.old_randomizers joint dhs g1
          obtain ⟨hsl1, hsl2⟩ := signLoop_spec
            params.comm_crh_sig_pp.sig_pp _ _ _ _ _ hsl
          refine ⟨p.1, p.2, rfl, rfl, rfl, rfl, rfl, rfl, ?_, g8,
            hsl1, ?_⟩
          · intro i rec key hrec hkey
            obtain ⟨sn, rz, hsn, hsns, hrzs⟩ := hget i (rec, key)
              (get?_zip_of oldRecs oldKeys i rec key hrec hkey)
            exact ⟨sn, rz, hsn, hsns, hrzs⟩
          · intro i kr sig hkr hsig
            exact hsl2 i kr sig hkr hsig

/-- A concrete successful `execute` run: one consumed input, no outputs. -/
def exC4 : Res ((List DPCRecord × DPCTransaction) × RngState) :=
  execute (cComp 1 0) cParams [r1C5] [k1C5] (fun _ => []) [] [] [] [] []
    (fun _ => []) [42] [41] cLedger ⟨[], 0⟩

/-- The transaction produced by `exC4`. -/
def txC4 : DPCTransaction :=
  match exC4 with
  | .ok p => p.1.2
  | _ => ⟨[], [], [], ⟨0, 0, 0, 0, 0, []⟩⟩

/-- The new records produced by `exC4`. -/
def nrC4 : List DPCRecord :=
  match exC4 with
  | .ok p => p.1.1
  | _ => []

/-- The rng state left by `exC4`. -/
def rngC4 : RngState :=
  match exC4 with
  | .ok p => p.2
  | _ => ⟨[], 0⟩

/-- Witness for `execute_signing` at a concrete input. -/
theorem execute_signing_witness :
    ∃ ctx rng1,
      executeHelper (cComp 1 0) cParams.comm_crh_sig_pp [r1C5] [k1C5] [] []
        [] [] [] [41] [42] cLedger ⟨[], 0⟩ = .ok (ctx, rng1) ∧
      txC4.old_serial_numbers = ctx.old_serial_numbers ∧
      txC4.new_commitments = ctx.new_commitments ∧
      txC4.memorandum = [41] ∧
      txC4.stuff.digest = ctx.ledger_digest ∧
      signatureMessage (cComp 1 0) txC4 = mkSignatureMessage (cComp 1 0)
        ctx.old_serial_numbers ctx.new_commitments [41] ctx.ledger_digest
        txC4.stuff.core_proof txC4.stuff.predicate_proof ∧
      (∀ i rec key, [r1C5].get? i = some rec → [k1C5].get? i = some key →
        ∃ sn rz, generate_sn (cComp 1 0) cParams.comm_crh_sig_pp rec key
            = .ok (sn, rz) ∧
          txC4.old_serial_numbers.get? i = some sn ∧
          ctx.old_randomizers.get? i = some rz) ∧
      ctx.old_address_secret_keys = [k1C5] ∧
      txC4.stuff.signatures.length
        = (ctx.old_address_secret_keys.zip ctx.old_randomizers).length ∧
      (∀ i kr sig,
        (ctx.old_address_secret_keys.zip ctx.old_randomizers).get? i
          = some kr →
        txC4.stuff.signatures.get? i = some sig →
        ∃ rv s, cParams.comm_crh_sig_pp.sig_pp.sign kr.1.sk_sig
            (signatureMessage (cComp 1 0) txC4) rv = .ok s ∧
          cParams.comm_crh_sig_pp.sig_pp.randomize_signature s kr.2
            = .ok sig) :=
  execute_signing (cComp 1 0) cParams [r1C5] [k1C5] (fun _ => []) [] [] []
    [] [] (fun _ => []) [42] [41] cLedger ⟨[], 0⟩ nrC4 txC4 rngC4 rfl

/-- Witness for `executeHelper_new_nonce` at a concrete input. -/
theorem executeHelper_new_nonce_witness :
    ctxC6.new_sn_nonce_randomness.length = ctxC6.new_records.length ∧
    ∀ j rec rand, ctxC6.new_records.get? j = some rec →
      ctxC6.new_sn_nonce_randomness.get? j = some rand →
      rand.length = 32 ∧
      cPP.sn_nonce_crh_pp ((j % 256) ::
          (rand ++ (ctxC6.old_serial_numbers.map (cComp 1 1).serSigPk).flatten))
        = .ok rec.serial_number_nonce :=
  executeHelper_new_nonce (cComp 1 1) cPP [r1C5] [k1C5] [⟨51⟩] [false] [[52]]
    [53] [54] [41] [42] cLedger ⟨[], 0⟩ ctxC6 rngC6 rfl

end Zexe
